import Mathlib

/-!
# ServiVENT transactional backend: shallow embedding and verification

This file embeds the five transactional Supabase Edge Function handlers of the
ServiVENT repository (create-sale, create-purchase, registrar-pago-compra,
receive-purchase-stock) as pure Lean functions over an explicit relational
state, and proves the specification's claims about them.

Modelling conventions:
* SQL numerics and JS numbers are modelled as `ℚ` (exact rationals); row ids
  and foreign keys as `Nat`.
* Each table is a `List` of row structures; `INSERT` appends, `UPDATE` maps,
  and the `ON CONFLICT` upsert checks for a key-matching row first.
* A handler is a function `DB → Request → DB × Response`.  The body of the SQL
  transaction (between `BEGIN` and `COMMIT`) is an `Except`-valued computation
  on the state; a thrown error reaches the handler's catch block, which issues
  `ROLLBACK`, so the handler returns the *original* state together with the
  error response, mirroring the source's BEGIN/COMMIT/ROLLBACK protocol.
* Nullable SQL columns are `Option`-typed; JS truthiness tests (`!x`) on the
  typed requests become `= 0` / `= ""` / `= []` tests, and `typeof x`
  checks that the typed embedding makes vacuous are noted in comments.
-/

namespace ServiVENT

/-- A row of `public."Inventario"`: per-branch stock with weighted-average
cost (`costo_promedio`). -/
structure InvRow where
  id_producto : Nat
  id_sucursal : Nat
  cantidad : ℚ
  costo_promedio : ℚ
deriving Repr, DecidableEq

/-- A row of `public."Productos"` (only the columns the handlers read). -/
structure Producto where
  id : Nat
  nombre : String
deriving Repr, DecidableEq

/-- A row of `public."Ventas"` (the `fecha_venta` timestamp is irrelevant to
every claim and omitted). -/
structure Venta where
  id : Nat
  id_sucursal : Nat
  monto_total : ℚ
  id_usuario : Nat
  metodo_pago : String
  estado : String
deriving Repr, DecidableEq

/-- A row of `public."Detalles_Venta"`. -/
structure DetalleVenta where
  id_venta : Nat
  id_producto : Nat
  cantidad : ℚ
  precio_unitario : ℚ
deriving Repr, DecidableEq

/-- A row of `public."Compras"` (the `fecha_compra` timestamp and display
folio are irrelevant to every claim and omitted).  `tipo_cambio` is a nullable
column. -/
structure Compra where
  id : Nat
  id_proveedor : Nat
  id_sucursal : Nat
  monto_total : ℚ
  estado : String
  estado_pago : String
  tipo_cambio : Option ℚ
deriving Repr, DecidableEq

/-- A row of `public."Detalles_Compra"`.  `moneda` is nullable; create-purchase
inserts line items without naming the column, so those rows carry `none`, and
SQL `NULL = '$'` is not true, which the `Option`-equality below reproduces. -/
structure DetalleCompra where
  id_compra : Nat
  id_producto : Nat
  cantidad : ℚ
  costo_unitario : ℚ
  moneda : Option String
deriving Repr, DecidableEq

/-- A row of `public."Pagos_Compra"`. -/
structure PagoCompra where
  id_compra : Nat
  monto : ℚ
  fecha_pago : String
  metodo_pago : String
  notas : Option String
deriving Repr, DecidableEq

/-- The shared relational store.  `next_venta_id` / `next_compra_id` model the
sequences behind `RETURNING id`. -/
structure DB where
  productos : List Producto
  inventario : List InvRow
  ventas : List Venta
  detalles_venta : List DetalleVenta
  compras : List Compra
  detalles_compra : List DetalleCompra
  pagos_compra : List PagoCompra
  next_venta_id : Nat
  next_compra_id : Nat
deriving Repr, DecidableEq

/-! ## create-sale (src/supabase/functions/create-sale/index.ts) -/

/-- One element of the `items` array of a create-sale request (well-typed:
the `typeof ... !== 'number'` run-time checks of line 57 hold by typing). -/
structure SaleItem where
  id_producto : Nat
  cantidad : ℚ
  precio_unitario : ℚ
deriving Repr, DecidableEq

/-- The JSON body of a create-sale request. -/
structure SaleReq where
  id_sucursal : Nat
  id_usuario : Nat
  monto_total : ℚ
  metodo_pago : String
  items : List SaleItem
deriving Repr, DecidableEq

/-- The errors create-sale throws; each constructor carries exactly the data
the source interpolates into the corresponding `Error` message string. -/
inductive SaleErr where
  /-- line 41: required data missing or invalid. -/
  | datosIncompletos
  /-- line 58: invalid item data for the product id. -/
  | itemInvalido (id_producto : Nat)
  /-- line 88: insufficient stock, naming the product, the available quantity
  and the requested quantity. -/
  | stockInsuficiente (productName : String) (disponible : ℚ) (solicitado : ℚ)
deriving Repr, DecidableEq

/-- The JSON response of create-sale, with the HTTP status the source attaches
(200 on line 96, 500 on line 112). -/
inductive SaleResp where
  | ok (status : Nat) (ventaId : Nat)
  | err (status : Nat) (msg : SaleErr)
deriving Repr, DecidableEq

/-- The conditional decrement of lines 69-74:
`UPDATE "Inventario" SET cantidad = cantidad - $1
 WHERE id_producto = $2 AND id_sucursal = $3 AND cantidad >= $1`.
Returns the updated table and the affected-row count (`rowCount`). -/
def condDecrement (cantidad : ℚ) (id_producto id_sucursal : Nat) :
    List InvRow → List InvRow × Nat
  | [] => ([], 0)
  | r :: rs =>
    if r.id_producto = id_producto ∧ r.id_sucursal = id_sucursal ∧ cantidad ≤ r.cantidad then
      ({ r with cantidad := r.cantidad - cantidad } :: (condDecrement cantidad id_producto id_sucursal rs).1,
        (condDecrement cantidad id_producto id_sucursal rs).2 + 1)
    else
      (r :: (condDecrement cantidad id_producto id_sucursal rs).1,
        (condDecrement cantidad id_producto id_sucursal rs).2)

/-- The diagnostic query of lines 79-84: `Inventario` rows for the
(product, branch) key joined to `Productos`, yielding (`Nombre`, `cantidad`). -/
def stockInfoRows (inv : List InvRow) (productos : List Producto)
    (id_producto id_sucursal : Nat) : List (String × ℚ) :=
  (inv.filter fun i => decide (i.id_producto = id_producto ∧ i.id_sucursal = id_sucursal)).flatMap
    fun i => (productos.filter fun p => decide (p.id = i.id_producto)).map
      fun p => (p.nombre, i.cantidad)

/-- Line 85: `stockInfo.rows[0]?.Nombre || ` fallback — the fallback fires when
the query returned no row, and also when the name is the falsy string `""`. -/
def productNameOf (rows : List (String × ℚ)) (id_producto : Nat) : String :=
  match rows with
  | [] => "Producto ID " ++ toString id_producto
  | (n, _) :: _ => if n = "" then "Producto ID " ++ toString id_producto else n

/-- Line 86: `stockInfo.rows[0]?.cantidad ?? 0`. -/
def availableStockOf (rows : List (String × ℚ)) : ℚ :=
  match rows with
  | [] => 0
  | (_, c) :: _ => c

/-- The per-item loop of lines 56-90, run inside the open transaction: validate
the item (typed residue of line 57: `item.cantidad <= 0`), insert the
`Detalles_Venta` row, run the conditional decrement, and on a zero row count
throw the insufficient-stock error built from the diagnostic query. -/
def saleItemsLoop (db : DB) (id_sucursal newVentaId : Nat) :
    List SaleItem → Except SaleErr DB
  | [] => .ok db
  | item :: rest =>
    if item.cantidad ≤ 0 then
      .error (.itemInvalido item.id_producto)
    else
      let db1 := { db with detalles_venta := db.detalles_venta ++
        [DetalleVenta.mk newVentaId item.id_producto item.cantidad item.precio_unitario] }
      let upd := condDecrement item.cantidad item.id_producto id_sucursal db1.inventario
      let db2 := { db1 with inventario := upd.1 }
      if upd.2 = 0 then
        let rows := stockInfoRows db2.inventario db2.productos item.id_producto id_sucursal
        .error (.stockInsuficiente (productNameOf rows item.id_producto)
          (availableStockOf rows) item.cantidad)
      else
        saleItemsLoop db2 id_sucursal newVentaId rest

/-- The `Ventas` header INSERT of lines 47-52 (state `'Completada'`, line 49),
with the sequence behind `RETURNING id` advanced. -/
def ventaHeaderInserted (db : DB) (req : SaleReq) : DB :=
  { db with
    ventas := db.ventas ++
      [Venta.mk db.next_venta_id req.id_sucursal req.monto_total req.id_usuario req.metodo_pago
        "Completada"],
    next_venta_id := db.next_venta_id + 1 }

/-- The transaction body of lines 44-92: insert the `Ventas` header, capture
the generated id, then run the item loop. -/
def createSaleTxn (db : DB) (req : SaleReq) : Except SaleErr (DB × Nat) :=
  (saleItemsLoop (ventaHeaderInserted db req) req.id_sucursal db.next_venta_id req.items).map
    fun db2 => (db2, db.next_venta_id)

/-- The create-sale handler.  Line 40's guard
`!id_sucursal || !id_usuario || typeof monto_total !== 'number' || !metodo_pago
 || !items || !Array.isArray(items) || items.length === 0`
becomes the falsiness tests the typed request can still exhibit.  Any thrown
error reaches the catch block of lines 99-113: `ROLLBACK` (the original state
is returned) and a response with status 500 carrying the error message. -/
def createSale (db : DB) (req : SaleReq) : DB × SaleResp :=
  if req.id_sucursal = 0 ∨ req.id_usuario = 0 ∨ req.metodo_pago = "" ∨ req.items = [] then
    (db, .err 500 .datosIncompletos)
  else
    match createSaleTxn db req with
    | .ok (db2, ventaId) => (db2, .ok 200 ventaId)
    | .error e => (db, .err 500 e)

/-! ## registrar-pago-compra
(src/supabase/functions/registrar-pago-compra/index.ts, first handler) -/

/-- The JSON body of a registrar-pago-compra request (well-typed residue). -/
structure PagoReq where
  purchaseId : Nat
  amount : ℚ
  paymentDate : String
  method : String
  notes : Option String
deriving Repr, DecidableEq

/-- The errors registrar-pago-compra throws. -/
inductive PagoErr where
  /-- line 37: mandatory payment data missing or invalid. -/
  | faltanDatos
  /-- line 71: no purchase found with the given id. -/
  | compraNoEncontrada (purchaseId : Nat)
deriving Repr, DecidableEq

/-- The JSON response of registrar-pago-compra, with the HTTP status the
source attaches (200 on line 94, 400 on line 109). -/
inductive PagoResp where
  | ok (status : Nat) (message : String)
  | err (status : Nat) (msg : PagoErr)
deriving Repr, DecidableEq

/-- One line of the `calculated_total` CTE of lines 52-63:
`CASE WHEN d.moneda = '$' THEN d.cantidad * d.costo_unitario *
 COALESCE(c.tipo_cambio, 1.0) ELSE d.cantidad * d.costo_unitario END`. -/
def lineTotal (rate : ℚ) (d : DetalleCompra) : ℚ :=
  if d.moneda = some "$" then d.cantidad * d.costo_unitario * rate
  else d.cantidad * d.costo_unitario

/-- `monto_total_calculado` of the totals query: the CTE drives from the one
`Compras` row with the given id (0 when that row is absent, since `SUM` over
no rows is `NULL` and `COALESCE` turns it into 0) and LEFT JOINs its
`Detalles_Compra` rows. -/
def calculatedTotal (db : DB) (purchaseId : Nat) : ℚ :=
  match db.compras.find? (fun c => decide (c.id = purchaseId)) with
  | none => 0
  | some c =>
    ((db.detalles_compra.filter fun d => decide (d.id_compra = purchaseId)).map
      (lineTotal (c.tipo_cambio.getD 1))).sum

/-- `total_paid` of the totals query (line 66):
`COALESCE(SUM(p.monto), 0.0)` over the purchase's `Pagos_Compra` rows. -/
def totalPago (pagos : List PagoCompra) (purchaseId : Nat) : ℚ :=
  ((pagos.filter fun p => decide (p.id_compra = purchaseId)).map PagoCompra.monto).sum

/-- The rows of the totals query of lines 51-68.  The outer SELECT consists of
two scalar subqueries over aggregates without GROUP BY, so it returns exactly
one row for every input, purchase present or not. -/
def totalsQueryRows (db : DB) (purchaseId : Nat) : List (ℚ × ℚ) :=
  [(calculatedTotal db purchaseId, totalPago db.pagos_compra purchaseId)]

/-- The payment-state derivation of lines 77-83, with the 0.001 tolerance. -/
def newStatus (total_paid monto_total_calculado : ℚ) : String :=
  if monto_total_calculado - 1/1000 ≤ total_paid then "Pagado"
  else if 0 < total_paid then "Parcialmente Pagado"
  else "Pago Pendiente"

/-- The `UPDATE "Compras" SET estado_pago = $1, monto_total = $2 WHERE id = $3`
of lines 85-88. -/
def updateComprasPago (compras : List Compra) (purchaseId : Nat)
    (estado_pago : String) (monto_total : ℚ) : List Compra :=
  compras.map fun c =>
    if c.id = purchaseId then { c with estado_pago := estado_pago, monto_total := monto_total }
    else c

/-- The `Pagos_Compra` INSERT of lines 44-48, which runs before the totals
are recomputed. -/
def pagoInserted (db : DB) (req : PagoReq) : DB :=
  { db with pagos_compra := db.pagos_compra ++
    [PagoCompra.mk req.purchaseId req.amount req.paymentDate req.method req.notes] }

/-- The registrar-pago-compra handler.  Line 36's guard
`!purchaseId || typeof amount !== 'number' || amount <= 0 || !paymentDate ||
 !method` becomes the falsiness tests the typed request can still exhibit.
The payment is inserted first, then the totals query runs, then its row count
is checked against zero, then the state/total update runs.  Any thrown error
reaches the catch block: `ROLLBACK` and a status-400 response. -/
def registrarPagoCompra (db : DB) (req : PagoReq) : DB × PagoResp :=
  if req.purchaseId = 0 ∨ req.amount ≤ 0 ∨ req.paymentDate = "" ∨ req.method = "" then
    (db, .err 400 .faltanDatos)
  else
    match totalsQueryRows (pagoInserted db req) req.purchaseId with
    | [] => (db, .err 400 (.compraNoEncontrada req.purchaseId))
    | (monto_total_calculado, total_paid) :: _ =>
      ({ pagoInserted db req with
          compras := updateComprasPago (pagoInserted db req).compras req.purchaseId
            (newStatus total_paid monto_total_calculado) monto_total_calculado },
        .ok 200 "Pago registrado y estado actualizado.")

/-! ## receive-purchase-stock
(src/supabase/functions/registrar-pago-compra/index.ts, second handler) -/

/-- The errors receive-purchase-stock throws. -/
inductive ReciboErr where
  /-- line 152: the purchase id is mandatory. -/
  | idObligatorio
  /-- line 165: no purchase with the given id. -/
  | compraNoEncontrada (purchase_id : Nat)
  /-- line 166: the purchase is already in the named state. -/
  | estadoInvalido (estado : String)
  /-- line 179: the purchase has no line items to receive. -/
  | sinProductos
deriving Repr, DecidableEq

/-- The JSON response of receive-purchase-stock, with the HTTP status the
source attaches (200 on line 218, 400 on line 233). -/
inductive ReciboResp where
  | ok (status : Nat) (message : String)
  | err (status : Nat) (msg : ReciboErr)
deriving Repr, DecidableEq

/-- The weighted-average-cost CASE expression of the receipt upsert
(lines 199-202), with the explicit zero-total-quantity guard. -/
def mergeCostoPromedio (oldCantidad oldCosto cantidad costo : ℚ) : ℚ :=
  if oldCantidad + cantidad = 0 then 0
  else (oldCantidad * oldCosto + cantidad * costo) / (oldCantidad + cantidad)

/-- The `INSERT ... ON CONFLICT (id_producto, id_sucursal) DO UPDATE` of
lines 194-205: if a row with the unique key exists, merge quantity and
weighted-average cost into it; otherwise insert the incoming batch as a new
row. -/
def upsertInventarioRecibo (inv : List InvRow) (id_producto id_sucursal : Nat)
    (cantidad costo : ℚ) : List InvRow :=
  if inv.any (fun r => decide (r.id_producto = id_producto ∧ r.id_sucursal = id_sucursal)) then
    inv.map fun r =>
      if r.id_producto = id_producto ∧ r.id_sucursal = id_sucursal then
        { r with
          costo_promedio := mergeCostoPromedio r.cantidad r.costo_promedio cantidad costo,
          cantidad := r.cantidad + cantidad }
      else r
  else inv ++ [InvRow.mk id_producto id_sucursal cantidad costo]

/-- The item loop of lines 183-206: skip items with non-positive quantity,
convert foreign-currency ('$') unit costs at the exchange rate, and upsert. -/
def reciboItemsLoop (inv : List InvRow) (branchId : Nat) (exchangeRate : ℚ) :
    List DetalleCompra → List InvRow
  | [] => inv
  | item :: rest =>
    if item.cantidad ≤ 0 then reciboItemsLoop inv branchId exchangeRate rest
    else
      let receivedCostInBaseCurrency :=
        if item.moneda = some "$" then item.costo_unitario * exchangeRate
        else item.costo_unitario
      reciboItemsLoop
        (upsertInventarioRecibo inv item.id_producto branchId item.cantidad
          receivedCostInBaseCurrency)
        branchId exchangeRate rest

/-- Line 169's `purchase.tipo_cambio || 1` is JS falsiness: both a NULL and a
zero exchange rate become 1. -/
def exchangeRateOf (purchase : Compra) : ℚ :=
  match purchase.tipo_cambio with
  | none => 1
  | some r => if r = 0 then 1 else r

/-- The line-item fetch of lines 172-176:
`SELECT ... FROM "Detalles_Compra" WHERE "id_compra" = $1`. -/
def itemsOf (db : DB) (purchase_id : Nat) : List DetalleCompra :=
  db.detalles_compra.filter fun d => decide (d.id_compra = purchase_id)

/-- The `UPDATE "Compras" SET "estado" = 'Confirmado' WHERE "id" = $1` of
lines 209-212. -/
def confirmCompra (compras : List Compra) (purchase_id : Nat) : List Compra :=
  compras.map fun c => if c.id = purchase_id then { c with estado := "Confirmado" } else c

/-- The sequence of weighted-average merges the spec quantifies over: batches
(q1,c1), …, (qn,cn) merged one after another into an initially empty
(product, branch) inventory row through the receipt upsert. -/
def mergeSequence (id_producto id_sucursal : Nat) (batches : List (ℚ × ℚ)) : List InvRow :=
  batches.foldl (fun inv qc => upsertInventarioRecibo inv id_producto id_sucursal qc.1 qc.2) []

/-- The receive-purchase-stock handler.  The `SELECT ... FOR UPDATE` row lock
of line 160 serializes concurrent calls; in this sequential embedding it is
the row lookup.  Steps: validate the id, lock and check the purchase (not
found, then state ≠ 'Pendiente'), fetch the line items (error when empty),
credit inventory, set the state to 'Confirmado'.  Any thrown error reaches
the catch block: `ROLLBACK` and a status-400 response. -/
def receivePurchaseStock (db : DB) (purchase_id : Nat) : DB × ReciboResp :=
  if purchase_id = 0 then (db, .err 400 .idObligatorio)
  else
    match db.compras.find? (fun c => decide (c.id = purchase_id)) with
    | none => (db, .err 400 (.compraNoEncontrada purchase_id))
    | some purchase =>
      if purchase.estado ≠ "Pendiente" then (db, .err 400 (.estadoInvalido purchase.estado))
      else if itemsOf db purchase_id = [] then (db, .err 400 .sinProductos)
      else
        ({ db with
            inventario := reciboItemsLoop db.inventario purchase.id_sucursal
              (exchangeRateOf purchase) (itemsOf db purchase_id),
            compras := confirmCompra db.compras purchase_id },
          .ok 200 "Stock actualizado correctamente.")

/-! ## create-purchase (src/unnamed/part_000, second handler) -/

/-- One element of the `items` array of a create-purchase request (well-typed
residue of line 121's `typeof` checks). -/
structure PurchaseItem where
  id_producto : Nat
  cantidad : ℚ
  costo_unitario : ℚ
deriving Repr, DecidableEq

/-- The JSON body of a create-purchase request.  `estado` is forwarded to the
INSERT untouched; the validation on line 106 never inspects it. -/
structure PurchaseReq where
  id_proveedor : Nat
  id_sucursal : Nat
  monto_total : ℚ
  estado : String
  items : List PurchaseItem
deriving Repr, DecidableEq

/-- The errors create-purchase throws. -/
inductive CompraErr where
  /-- line 107: required data missing or invalid. -/
  | datosIncompletos
  /-- line 122: invalid item data for the product id. -/
  | itemInvalido (id_producto : Nat)
deriving Repr, DecidableEq

/-- The JSON response of create-purchase, with the HTTP status the source
attaches (200 on line 147, 500 on line 162). -/
inductive CompraResp where
  | ok (status : Nat) (compraId : Nat)
  | err (status : Nat) (msg : CompraErr)
deriving Repr, DecidableEq

/-- The weighted-average-cost expression of the purchase-creation upsert
(line 137) — no zero-denominator guard; the item validation enforces
`cantidad > 0`, and over ℚ a zero denominator yields 0 where SQL would abort
the transaction (never reached under the stock-nonnegativity invariant). -/
def mergeCostoPromedioCompra (oldCantidad oldCosto cantidad costo : ℚ) : ℚ :=
  (oldCantidad * oldCosto + cantidad * costo) / (oldCantidad + cantidad)

/-- The `INSERT ... ON CONFLICT (id_producto, id_sucursal) DO UPDATE` of
lines 132-140. -/
def upsertInventarioCompra (inv : List InvRow) (id_producto id_sucursal : Nat)
    (cantidad costo : ℚ) : List InvRow :=
  if inv.any (fun r => decide (r.id_producto = id_producto ∧ r.id_sucursal = id_sucursal)) then
    inv.map fun r =>
      if r.id_producto = id_producto ∧ r.id_sucursal = id_sucursal then
        { r with
          costo_promedio := mergeCostoPromedioCompra r.cantidad r.costo_promedio cantidad costo,
          cantidad := r.cantidad + cantidad }
      else r
  else inv ++ [InvRow.mk id_producto id_sucursal cantidad costo]

/-- The per-item loop of lines 120-141, run inside the open transaction:
validate the item (typed residue: `item.cantidad <= 0`), insert the
`Detalles_Compra` row (the INSERT names no `moneda` column, so the row
carries the column's default, modelled as `none`), then upsert inventory. -/
def compraItemsLoop (db : DB) (id_sucursal newCompraId : Nat) :
    List PurchaseItem → Except CompraErr DB
  | [] => .ok db
  | item :: rest =>
    if item.cantidad ≤ 0 then
      .error (.itemInvalido item.id_producto)
    else
      let db1 := { db with detalles_compra := db.detalles_compra ++
        [DetalleCompra.mk newCompraId item.id_producto item.cantidad item.costo_unitario none] }
      let db2 := { db1 with inventario :=
        (upsertInventarioCompra db1.inventario item.id_producto id_sucursal
          item.cantidad item.costo_unitario) }
      compraItemsLoop db2 id_sucursal newCompraId rest

/-- The `Compras` header INSERT of lines 112-117, with the sequence behind
`RETURNING id` advanced.  The INSERT names only (id_proveedor, id_sucursal,
monto_total, estado, fecha_compra); `estado_pago` and `tipo_cambio` take
their column defaults, modelled as `"Pago Pendiente"` and `none`. -/
def compraHeaderInserted (db : DB) (req : PurchaseReq) : DB :=
  { db with
    compras := db.compras ++
      [Compra.mk db.next_compra_id req.id_proveedor req.id_sucursal req.monto_total req.estado
        "Pago Pendiente" none],
    next_compra_id := db.next_compra_id + 1 }

/-- The create-purchase handler.  Line 106's guard
`!id_proveedor || !id_sucursal || typeof monto_total !== 'number' || !items ||
 !Array.isArray(items) || items.length === 0`
becomes the falsiness tests the typed request can still exhibit — note that
`estado` is not checked.  The `Compras` INSERT of lines 112-117 names only
(id_proveedor, id_sucursal, monto_total, estado, fecha_compra); `estado_pago`
and `tipo_cambio` take their column defaults, modelled as `"Pago Pendiente"`
and `none`.  Any thrown error reaches the catch block of lines 150-163:
`ROLLBACK` and a status-500 response. -/
def createPurchase (db : DB) (req : PurchaseReq) : DB × CompraResp :=
  if req.id_proveedor = 0 ∨ req.id_sucursal = 0 ∨ req.items = [] then
    (db, .err 500 .datosIncompletos)
  else
    match compraItemsLoop (compraHeaderInserted db req) req.id_sucursal db.next_compra_id
        req.items with
    | .ok db2 => (db2, .ok 200 db.next_compra_id)
    | .error e => (db, .err 500 e)

/-! ## The untyped (raw JSON) validation of create-purchase

The claims about validation concern run-time shape checks on an untyped JSON
body, so those two source lines are also embedded over a JSON value type. -/

/-- A JSON value as the handlers receive it (objects/arrays beyond the item
list do not occur in the checked positions). -/
inductive JVal where
  | num (n : ℚ)
  | str (s : String)
  | boolean (b : Bool)
  | null
deriving Repr, DecidableEq

/-- JS truthiness of a possibly-absent value: `undefined`, `null`, `0`, `""`
and `false` are falsy. -/
def truthy : Option JVal → Bool
  | none => false
  | some .null => false
  | some (.num n) => decide (n ≠ 0)
  | some (.str s) => decide (s ≠ "")
  | some (.boolean b) => b

/-- `typeof x === 'number'`. -/
def isNumber : Option JVal → Bool
  | some (.num _) => true
  | _ => false

/-- The numeric value of a JSON number (0 otherwise; only read after
`isNumber` holds). -/
def numVal : Option JVal → ℚ
  | some (.num n) => n
  | _ => 0

/-- An element of the raw `items` array of a create-purchase request. -/
structure RawPurchaseItem where
  id_producto : Option JVal
  cantidad : Option JVal
  costo_unitario : Option JVal
deriving Repr, DecidableEq

/-- The raw JSON body of a create-purchase request.  `items` is `none` when
absent (a JSON non-array in that position is likewise rejected by the
`Array.isArray` test, which the list typing folds into absence). -/
structure RawPurchaseReq where
  id_proveedor : Option JVal
  id_sucursal : Option JVal
  monto_total : Option JVal
  estado : Option JVal
  items : Option (List RawPurchaseItem)
deriving Repr, DecidableEq

/-- The header validation guard of line 106 of create-purchase, exactly:
`!id_proveedor || !id_sucursal || typeof monto_total !== 'number' || !items ||
 !Array.isArray(items) || items.length === 0` (true = the request is rejected
with the InvalidInput error).  `estado` is absent from the guard. -/
def purchaseHeaderInvalid (req : RawPurchaseReq) : Bool :=
  !truthy req.id_proveedor || !truthy req.id_sucursal || !isNumber req.monto_total ||
    req.items.isNone || (req.items.getD []).isEmpty

/-- The item validation guard of line 121 of create-purchase, exactly:
`typeof item.id_producto !== 'number' || typeof item.cantidad !== 'number' ||
 typeof item.costo_unitario !== 'number' || item.cantidad <= 0`. -/
def purchaseItemInvalid (item : RawPurchaseItem) : Bool :=
  !isNumber item.id_producto || !isNumber item.cantidad || !isNumber item.costo_unitario ||
    decide (numVal item.cantidad ≤ 0)

/-! ## Concrete states and requests used in scenario conjuncts and
counterexamples -/

/-- An empty store. -/
def dbEmpty : DB :=
  { productos := [], inventario := [], ventas := [], detalles_venta := [],
    compras := [], detalles_compra := [], pagos_compra := [],
    next_venta_id := 1, next_compra_id := 1 }

/-- Spec scenario 6's store: product 7 with 5 units at branch 2. -/
def dbScenario6 : DB :=
  { dbEmpty with
    productos := [Producto.mk 7 "Widget"],
    inventario := [InvRow.mk 7 2 5 4] }

/-- Spec scenario 6's request: sell 3 units of product 7 at branch 2. -/
def reqScenario6 : SaleReq :=
  SaleReq.mk 2 9 30 "Efectivo" [SaleItem.mk 7 3 10]

/-- Spec scenario 7's store: a pending purchase (id 3, branch 2) whose one
line item computes to a total of 100. -/
def dbScenario7 : DB :=
  { dbEmpty with
    compras := [Compra.mk 3 1 2 0 "Pendiente" "Pago Pendiente" none],
    detalles_compra := [DetalleCompra.mk 3 7 10 10 none],
    next_compra_id := 4 }

/-- Spec scenario 7's first payment: 40 against purchase 3. -/
def pago40 : PagoReq := PagoReq.mk 3 40 "2026-01-01" "Efectivo" none

/-- Spec scenario 7's second payment: 60 against purchase 3. -/
def pago60 : PagoReq := PagoReq.mk 3 60 "2026-01-02" "Efectivo" none

/-- A payment against purchase id 5, which exists in no store used with it. -/
def pagoInexistente : PagoReq := PagoReq.mk 5 50 "2026-01-01" "Efectivo" none

/-- A create-sale request whose `items` array is empty (malformed input). -/
def reqSinItems : SaleReq := SaleReq.mk 2 9 30 "Efectivo" []

/-- A raw create-purchase request with every validated field well-formed but
the `estado` (initial state) field missing. -/
def reqSinEstado : RawPurchaseReq :=
  { id_proveedor := some (.num 1), id_sucursal := some (.num 1),
    monto_total := some (.num 100), estado := none,
    items := some [RawPurchaseItem.mk (some (.num 7)) (some (.num 2)) (some (.num 5))] }

/-! ## Lemmas about the conditional decrement and the sale item loop -/

/-- Rows produced by the conditional decrement have nonnegative quantity
whenever the input rows do: an updated row satisfied `cantidad >= $1` at the
instant of the write. -/
theorem condDecrement_fst_nonneg (cantidad : ℚ) (id_producto id_sucursal : Nat)
    (inv : List InvRow) (h : ∀ r ∈ inv, 0 ≤ r.cantidad) :
    ∀ r ∈ (condDecrement cantidad id_producto id_sucursal inv).1, 0 ≤ r.cantidad := by
  induction inv with
  | nil => simp [condDecrement]
  | cons a rs ih =>
    have ha := h a (by simp)
    have hrs : ∀ r ∈ rs, 0 ≤ r.cantidad := fun r hr => h r (by simp [hr])
    intro r hr
    simp only [condDecrement] at hr
    split at hr
    · rename_i hcond
      rcases List.mem_cons.1 hr with h1 | h2
      · subst h1
        simpa using sub_nonneg.2 hcond.2.2
      · exact ih hrs r h2
    · rcases List.mem_cons.1 hr with h1 | h2
      · exact h1 ▸ ha
      · exact ih hrs r h2

/-- A zero affected-row count leaves the table unchanged. -/
theorem condDecrement_count_zero (cantidad : ℚ) (id_producto id_sucursal : Nat)
    (inv : List InvRow) (h : (condDecrement cantidad id_producto id_sucursal inv).2 = 0) :
    (condDecrement cantidad id_producto id_sucursal inv).1 = inv := by
  induction inv with
  | nil => simp [condDecrement]
  | cons a rs ih =>
    simp only [condDecrement] at h ⊢
    split at h
    · simp at h
    · rename_i hcond
      simp only [if_neg hcond]
      simp [ih h]

/-- When no row carries the (product, branch) key at all, the conditional
decrement affects zero rows and changes nothing. -/
theorem condDecrement_no_key (cantidad : ℚ) (id_producto id_sucursal : Nat)
    (inv : List InvRow)
    (h : ∀ r ∈ inv, ¬(r.id_producto = id_producto ∧ r.id_sucursal = id_sucursal)) :
    condDecrement cantidad id_producto id_sucursal inv = (inv, 0) := by
  induction inv with
  | nil => simp [condDecrement]
  | cons a rs ih =>
    have ha := h a (by simp)
    have hrs : ∀ r ∈ rs, ¬(r.id_producto = id_producto ∧ r.id_sucursal = id_sucursal) :=
      fun r hr => h r (by simp [hr])
    simp only [condDecrement]
    rw [if_neg (by tauto), ih hrs]

/-- When no inventory row carries the (product, branch) key, the diagnostic
join returns no rows. -/
theorem stockInfoRows_no_key (inv : List InvRow) (productos : List Producto)
    (id_producto id_sucursal : Nat)
    (h : ∀ r ∈ inv, ¬(r.id_producto = id_producto ∧ r.id_sucursal = id_sucursal)) :
    stockInfoRows inv productos id_producto id_sucursal = [] := by
  unfold stockInfoRows
  have : inv.filter
      (fun i => decide (i.id_producto = id_producto ∧ i.id_sucursal = id_sucursal)) = [] := by
    rw [List.filter_eq_nil_iff]
    intro r hr
    simpa using h r hr
  rw [this]
  rfl

/-- If the sale item loop returns normally, all resulting inventory
quantities are nonnegative whenever the incoming ones were. -/
theorem saleItemsLoop_ok_nonneg (items : List SaleItem) :
    ∀ (db : DB) (id_sucursal newVentaId : Nat) (db2 : DB),
      saleItemsLoop db id_sucursal newVentaId items = .ok db2 →
      (∀ r ∈ db.inventario, 0 ≤ r.cantidad) → ∀ r ∈ db2.inventario, 0 ≤ r.cantidad := by
  induction items with
  | nil =>
    intro db id_sucursal newVentaId db2 h hn
    simp only [saleItemsLoop, Except.ok.injEq] at h
    exact h ▸ hn
  | cons item rest ih =>
    intro db id_sucursal newVentaId db2 h hn
    simp only [saleItemsLoop] at h
    split at h
    · exact absurd h (by simp)
    · split at h
      · exact absurd h (by simp)
      · exact ih _ _ _ _ h
          (condDecrement_fst_nonneg item.cantidad item.id_producto id_sucursal _ hn)

/-- Any failing create-sale call leaves the store exactly as it found it
(the catch block rolls the transaction back before answering). -/
theorem createSale_rollback (db : DB) (req : SaleReq) (status : Nat) (e : SaleErr)
    (h : (createSale db req).2 = .err status e) : (createSale db req).1 = db := by
  unfold createSale at h ⊢
  by_cases hv : req.id_sucursal = 0 ∨ req.id_usuario = 0 ∨ req.metodo_pago = "" ∨ req.items = []
  · rw [if_pos hv]
  · rw [if_neg hv] at h ⊢
    rcases htxn : createSaleTxn db req with e2 | ⟨db2, ventaId⟩
    · rfl
    · rw [htxn] at h
      exact SaleResp.noConfusion h

/-- A sale request containing any item with non-positive quantity makes the
item loop throw. -/
theorem saleItemsLoop_err_of_bad_item (items : List SaleItem) :
    ∀ (db : DB) (id_sucursal newVentaId : Nat),
      (∃ it ∈ items, it.cantidad ≤ 0) →
      ∃ e, saleItemsLoop db id_sucursal newVentaId items = .error e := by
  induction items with
  | nil => intro db _ _ h; simp at h
  | cons item rest ih =>
    intro db id_sucursal newVentaId h
    simp only [saleItemsLoop]
    split
    · exact ⟨_, rfl⟩
    · rename_i hpos
      split
      · exact ⟨_, rfl⟩
      · apply ih
        rcases h with ⟨it, hit, hle⟩
        rcases List.mem_cons.1 hit with h1 | h2
        · exact absurd (h1 ▸ hle) hpos
        · exact ⟨it, h2, hle⟩

/-- **C1.** For every create-sale request, the Inventory quantity for each
(product, branch) pair never goes negative: the conditional
`UPDATE ... WHERE ... cantidad >= $1` is the one atomic check-and-decrement,
so every store with nonnegative stock still has nonnegative stock after the
call, whatever the request (first conjunct); and whenever the guard matches
zero rows for an item, the loop throws the insufficient-stock error naming
the product (with the diagnostic-query name), the available quantity and the
requested quantity (second conjunct).  The scenario conjuncts replay spec
scenario 6: selling 3 of 5 units succeeds leaving 2, and immediately selling
3 more fails with available 2 and requested 3, stock unchanged. -/
theorem createSale_stock_invariant :
    (∀ (db : DB) (req : SaleReq), (∀ r ∈ db.inventario, 0 ≤ r.cantidad) →
      ∀ r ∈ (createSale db req).1.inventario, 0 ≤ r.cantidad) ∧
    (∀ (db : DB) (id_sucursal newVentaId : Nat) (item : SaleItem) (rest : List SaleItem),
      ¬ item.cantidad ≤ 0 →
      (condDecrement item.cantidad item.id_producto id_sucursal db.inventario).2 = 0 →
      saleItemsLoop db id_sucursal newVentaId (item :: rest) =
        .error (.stockInsuficiente
          (productNameOf (stockInfoRows db.inventario db.productos item.id_producto id_sucursal)
            item.id_producto)
          (availableStockOf (stockInfoRows db.inventario db.productos item.id_producto id_sucursal))
          item.cantidad)) ∧
    (createSale dbScenario6 reqScenario6).2 = .ok 200 1 ∧
    (createSale dbScenario6 reqScenario6).1.inventario = [InvRow.mk 7 2 2 4] ∧
    (createSale (createSale dbScenario6 reqScenario6).1 reqScenario6).2 =
      .err 500 (.stockInsuficiente "Widget" 2 3) ∧
    (createSale (createSale dbScenario6 reqScenario6).1 reqScenario6).1.inventario =
      [InvRow.mk 7 2 2 4] := by
  refine ⟨?_, ?_, ?_⟩
  · intro db req hn
    unfold createSale
    split
    · exact hn
    · rcases htxn : createSaleTxn db req with e | ⟨db2, ventaId⟩
      · exact hn
      · unfold createSaleTxn at htxn
        rcases hloop : saleItemsLoop (ventaHeaderInserted db req) req.id_sucursal
            db.next_venta_id req.items with e | dbx <;> rw [hloop] at htxn
        · simp [Except.map] at htxn
        · simp only [Except.map, Except.ok.injEq, Prod.mk.injEq] at htxn
          have hdb2 : db2 = dbx := htxn.1.symm
          subst hdb2
          exact saleItemsLoop_ok_nonneg req.items _ _ _ _ hloop hn
  · intro db id_sucursal newVentaId item rest hpos hcount
    simp only [saleItemsLoop, if_neg hpos]
    rw [if_pos hcount]
    rw [condDecrement_count_zero _ _ _ _ hcount]
  · norm_num [createSale, createSaleTxn, ventaHeaderInserted, saleItemsLoop, condDecrement,
      stockInfoRows, productNameOf, availableStockOf, dbScenario6, dbEmpty, reqScenario6]
    decide

/-- **C10.** A create-sale item whose (product, branch) pair has no Inventory
row at all makes the conditional decrement match zero rows, so the handler
fails with the insufficient-stock error reporting available quantity 0 and —
the diagnostic join over the absent inventory row being empty — the fallback
name `Producto ID <id>` (in particular when the product row is also absent);
no distinct not-found error exists in create-sale (`SaleErr` has no such
shape), and the transaction is rolled back (second conjunct). -/
theorem createSale_missing_inventory_insufficient :
    (∀ (db : DB) (id_sucursal newVentaId : Nat) (item : SaleItem) (rest : List SaleItem),
      ¬ item.cantidad ≤ 0 →
      (∀ r ∈ db.inventario, ¬(r.id_producto = item.id_producto ∧ r.id_sucursal = id_sucursal)) →
      saleItemsLoop db id_sucursal newVentaId (item :: rest) =
        .error (.stockInsuficiente ("Producto ID " ++ toString item.id_producto) 0
          item.cantidad)) ∧
    (∀ (db : DB) (req : SaleReq) (status : Nat) (e : SaleErr),
      (createSale db req).2 = .err status e → (createSale db req).1 = db) := by
  constructor
  · intro db id_sucursal newVentaId item rest hpos hnokey
    have hcd := condDecrement_no_key item.cantidad item.id_producto id_sucursal db.inventario hnokey
    simp only [saleItemsLoop, if_neg hpos]
    rw [hcd]
    simp only [if_pos rfl]
    rw [stockInfoRows_no_key db.inventario db.productos item.id_producto id_sucursal hnokey]
    rfl
  · exact createSale_rollback

/-- The weighted-average upsert of create-purchase keeps the state unchanged
only in shape; what matters for atomicity is that the item loop, when it
returns at all, returns normally or throws — and a non-positive quantity
anywhere in the list always throws. -/
theorem compraItemsLoop_err_of_bad_item (items : List PurchaseItem) :
    ∀ (db : DB) (id_sucursal newCompraId : Nat),
      (∃ it ∈ items, it.cantidad ≤ 0) →
      ∃ e, compraItemsLoop db id_sucursal newCompraId items = .error e := by
  induction items with
  | nil => intro db _ _ h; simp at h
  | cons item rest ih =>
    intro db id_sucursal newCompraId h
    simp only [compraItemsLoop]
    split
    · exact ⟨_, rfl⟩
    · rename_i hpos
      apply ih
      rcases h with ⟨it, hit, hle⟩
      rcases List.mem_cons.1 hit with h1 | h2
      · exact absurd (h1 ▸ hle) hpos
      · exact ⟨it, h2, hle⟩

/-- Any failing create-purchase call leaves the store exactly as it found it
(the catch block rolls the transaction back before answering). -/
theorem createPurchase_rollback (db : DB) (req : PurchaseReq) (status : Nat) (e : CompraErr)
    (h : (createPurchase db req).2 = .err status e) : (createPurchase db req).1 = db := by
  unfold createPurchase at h ⊢
  by_cases hv : req.id_proveedor = 0 ∨ req.id_sucursal = 0 ∨ req.items = []
  · rw [if_pos hv]
  · rw [if_neg hv] at h ⊢
    rcases htxn : compraItemsLoop (compraHeaderInserted db req) req.id_sucursal
        db.next_compra_id req.items with e2 | db2
    · rfl
    · rw [htxn] at h
      exact CompraResp.noConfusion h

/-- **C5.** create-sale and create-purchase are all-or-nothing: whenever the
call answers with an error — any invalid line item, any step failure — the
returned store is exactly the incoming store (no header, no line items, no
inventory change survive), and a request containing an item with
non-positive quantity among otherwise-valid items always answers with an
error.  The two conjuncts per endpoint cover both halves. -/
theorem create_endpoints_atomicity :
    (∀ (db : DB) (req : SaleReq) (status : Nat) (e : SaleErr),
      (createSale db req).2 = .err status e → (createSale db req).1 = db) ∧
    (∀ (db : DB) (req : SaleReq), (∃ it ∈ req.items, it.cantidad ≤ 0) →
      ∃ status e, (createSale db req).2 = .err status e) ∧
    (∀ (db : DB) (req : PurchaseReq) (status : Nat) (e : CompraErr),
      (createPurchase db req).2 = .err status e → (createPurchase db req).1 = db) ∧
    (∀ (db : DB) (req : PurchaseReq), (∃ it ∈ req.items, it.cantidad ≤ 0) →
      ∃ status e, (createPurchase db req).2 = .err status e) := by
  refine ⟨createSale_rollback, ?_, createPurchase_rollback, ?_⟩
  · intro db req hbad
    unfold createSale
    split
    · exact ⟨500, .datosIncompletos, rfl⟩
    · obtain ⟨e, he⟩ := saleItemsLoop_err_of_bad_item req.items
        (ventaHeaderInserted db req) req.id_sucursal db.next_venta_id hbad
      unfold createSaleTxn
      rw [he]
      exact ⟨500, e, rfl⟩
  · intro db req hbad
    unfold createPurchase
    split
    · exact ⟨500, .datosIncompletos, rfl⟩
    · obtain ⟨e, he⟩ := compraItemsLoop_err_of_bad_item req.items
        (compraHeaderInserted db req) req.id_sucursal db.next_compra_id hbad
      rw [he]
      exact ⟨500, e, rfl⟩

/-! ## Lemmas about receive-purchase-stock -/

/-- Searching by id commutes with mapping an id-preserving row transform. -/
theorem find?_map_preserves_id (l : List Compra) (g : Compra → Compra) (pid : Nat)
    (hg : ∀ c, (g c).id = c.id) :
    (l.map g).find? (fun c => decide (c.id = pid)) =
      (l.find? (fun c => decide (c.id = pid))).map g := by
  induction l with
  | nil => simp
  | cons a l ih =>
    by_cases h : a.id = pid
    · rw [List.map_cons, List.find?_cons_of_pos _ (by simp [hg, h]),
        List.find?_cons_of_pos _ (by simp [h])]
      rfl
    · rw [List.map_cons, List.find?_cons_of_neg _ (by simp [hg, h]),
        List.find?_cons_of_neg _ (by simp [h]), ih]

/-- A row of the confirmed table that carries the purchase id is in state
'Confirmado'. -/
theorem mem_confirmCompra (l : List Compra) (pid : Nat) (c : Compra)
    (hc : c ∈ confirmCompra l pid) (hid : c.id = pid) : c.estado = "Confirmado" := by
  unfold confirmCompra at hc
  rcases List.mem_map.1 hc with ⟨c0, _, hc0⟩
  by_cases h : c0.id = pid
  · rw [if_pos h] at hc0
    rw [← hc0]
  · rw [if_neg h] at hc0
    exact absurd (hc0 ▸ hid) h

/-- What a successful receive-purchase-stock call tells us: the id was
nonzero, the locked purchase row existed in state 'Pendiente', and the
returned store is the incoming one with inventory credited and the purchase
confirmed. -/
theorem receive_ok_spec (db : DB) (pid : Nat) (db2 : DB) (st : Nat) (m : String)
    (h : receivePurchaseStock db pid = (db2, .ok st m)) :
    pid ≠ 0 ∧ ∃ purchase,
      db.compras.find? (fun c => decide (c.id = pid)) = some purchase ∧
      purchase.estado = "Pendiente" ∧
      db2 = { db with
        inventario := reciboItemsLoop db.inventario purchase.id_sucursal
          (exchangeRateOf purchase) (itemsOf db pid),
        compras := confirmCompra db.compras pid } := by
  unfold receivePurchaseStock at h
  split at h
  · simp at h
  · rename_i hpid
    split at h
    · simp at h
    · rename_i purchase hfind
      split at h
      · simp at h
      · rename_i hest
        split at h
        · simp at h
        · refine ⟨hpid, purchase, hfind, not_not.1 hest, ?_⟩
          exact (Prod.mk.injEq _ _ _ _ ▸ h).1.symm

/-- **C6.** receive-purchase-stock fails with the not-found error when no
purchase carries the given id, and with the invalid-state error naming the
current state when the purchase is not 'Pendiente'; a success sets every row
with that id to 'Confirmado'; and the transition is terminal: after a
success, calling the handler again on the same id fails with the
invalid-state error naming 'Confirmado' and returns the store unchanged — so
two sequential calls perform exactly one confirmation and one inventory
credit. -/
theorem receive_stock_terminal :
    (∀ (db : DB) (pid : Nat), pid ≠ 0 → (∀ c ∈ db.compras, c.id ≠ pid) →
      receivePurchaseStock db pid = (db, .err 400 (.compraNoEncontrada pid))) ∧
    (∀ (db : DB) (pid : Nat) (purchase : Compra), pid ≠ 0 →
      db.compras.find? (fun c => decide (c.id = pid)) = some purchase →
      purchase.estado ≠ "Pendiente" →
      receivePurchaseStock db pid = (db, .err 400 (.estadoInvalido purchase.estado))) ∧
    (∀ (db : DB) (pid : Nat) (db2 : DB) (st : Nat) (m : String),
      receivePurchaseStock db pid = (db2, .ok st m) →
      ∀ c ∈ db2.compras, c.id = pid → c.estado = "Confirmado") ∧
    (∀ (db : DB) (pid : Nat) (db2 : DB) (st : Nat) (m : String),
      receivePurchaseStock db pid = (db2, .ok st m) →
      receivePurchaseStock db2 pid = (db2, .err 400 (.estadoInvalido "Confirmado"))) := by
  refine ⟨?_, ?_, ?_, ?_⟩
  · intro db pid hpid hno
    have hnone : db.compras.find? (fun c => decide (c.id = pid)) = none :=
      List.find?_eq_none.2 fun c hc => by simpa using hno c hc
    unfold receivePurchaseStock
    rw [if_neg hpid, hnone]
  · intro db pid purchase hpid hfind hest
    unfold receivePurchaseStock
    rw [if_neg hpid, hfind]
    simp only [if_pos hest]
  · intro db pid db2 st m h c hc hid
    obtain ⟨-, purchase, -, -, hdb2⟩ := receive_ok_spec db pid db2 st m h
    rw [hdb2] at hc
    exact mem_confirmCompra db.compras pid c hc hid
  · intro db pid db2 st m h
    obtain ⟨hpid, purchase, hfind, hpend, hdb2⟩ := receive_ok_spec db pid db2 st m h
    have hpidp : purchase.id = pid := by
      have := List.find?_some hfind
      simpa using this
    have hfind2 : db2.compras.find? (fun c => decide (c.id = pid)) =
        some { purchase with estado := "Confirmado" } := by
      rw [hdb2]
      show (confirmCompra db.compras pid).find? (fun c => decide (c.id = pid)) = _
      unfold confirmCompra
      rw [find?_map_preserves_id db.compras _ pid (fun c => by split <;> rfl), hfind]
      simp [hpidp]
    unfold receivePurchaseStock
    rw [if_neg hpid, hfind2]
    simp

/-! ## Lemmas about registrar-pago-compra -/

/-- A row of the updated purchases table that carries the purchase id holds
the written payment state and total. -/
theorem mem_updateComprasPago (l : List Compra) (pid : Nat) (ns : String) (mt : ℚ)
    (c : Compra) (hc : c ∈ updateComprasPago l pid ns mt) (hid : c.id = pid) :
    c.estado_pago = ns ∧ c.monto_total = mt := by
  unfold updateComprasPago at hc
  rcases List.mem_map.1 hc with ⟨c0, _, hc0⟩
  by_cases h : c0.id = pid
  · rw [if_pos h] at hc0
    rw [← hc0]
    exact ⟨rfl, rfl⟩
  · rw [if_neg h] at hc0
    exact absurd (hc0 ▸ hid) h

/-- The canonical total reads only the purchase row's exchange rate and the
line items, so updating payment state and stored total does not move it. -/
theorem calculatedTotal_updateCompras (db : DB) (pid : Nat) (ns : String) (mt : ℚ) :
    calculatedTotal { db with compras := updateComprasPago db.compras pid ns mt } pid =
      calculatedTotal db pid := by
  show (match (updateComprasPago db.compras pid ns mt).find? (fun c => decide (c.id = pid)) with
      | none => (0 : ℚ)
      | some c => ((db.detalles_compra.filter fun (d : DetalleCompra) =>
          decide (d.id_compra = pid)).map (lineTotal (c.tipo_cambio.getD 1))).sum) =
    (match db.compras.find? (fun c => decide (c.id = pid)) with
      | none => (0 : ℚ)
      | some c => ((db.detalles_compra.filter fun (d : DetalleCompra) =>
          decide (d.id_compra = pid)).map (lineTotal (c.tipo_cambio.getD 1))).sum)
  unfold updateComprasPago
  rw [find?_map_preserves_id db.compras _ pid (fun c => by split <;> rfl)]
  cases hfind : db.compras.find? (fun c => decide (c.id = pid)) with
  | none => rfl
  | some c => by_cases hcid : c.id = pid <;> simp [hcid]

/-- What a successful registrar-pago-compra call returns: the incoming store
with the payment appended and every row carrying the purchase id updated to
the recomputed total and the derived payment state. -/
theorem registrarPago_ok_spec (db : DB) (req : PagoReq) (db2 : DB) (st : Nat) (m : String)
    (h : registrarPagoCompra db req = (db2, .ok st m)) :
    db2 = { pagoInserted db req with
      compras := updateComprasPago (pagoInserted db req).compras req.purchaseId
        (newStatus (totalPago (pagoInserted db req).pagos_compra req.purchaseId)
          (calculatedTotal (pagoInserted db req) req.purchaseId))
        (calculatedTotal (pagoInserted db req) req.purchaseId) } := by
  unfold registrarPagoCompra at h
  split at h
  · simp at h
  · have h2 : (({ pagoInserted db req with
        compras := updateComprasPago (pagoInserted db req).compras req.purchaseId
          (newStatus (totalPago (pagoInserted db req).pagos_compra req.purchaseId)
            (calculatedTotal (pagoInserted db req) req.purchaseId))
          (calculatedTotal (pagoInserted db req) req.purchaseId) } : DB),
        (PagoResp.ok 200 "Pago registrado y estado actualizado.")) = (db2, .ok st m) := h
    exact (Prod.mk.injEq _ _ _ _ ▸ h2).1.symm

/-- **C3.** The payment state written by registrar-pago-compra is exactly the
pure tolerance rule with epsilon 0.001 (first conjunct, an iff
characterization for each of the three states); after every successful call
the stored state is that function of the recomputed total and the current
total paid (second conjunct); the total paid is order-independent (third
conjunct, permutation invariance); and spec scenario 7 replays: paying 40
then 60 against a computed total of 100 passes through 'Parcialmente Pagado'
and ends 'Pagado' (final conjuncts). -/
theorem payment_state_derivation :
    (∀ total_paid monto : ℚ,
      (newStatus total_paid monto = "Pagado" ↔ monto - 1/1000 ≤ total_paid) ∧
      (newStatus total_paid monto = "Parcialmente Pagado" ↔
        0 < total_paid ∧ total_paid < monto - 1/1000) ∧
      (newStatus total_paid monto = "Pago Pendiente" ↔
        total_paid ≤ 0 ∧ total_paid < monto - 1/1000)) ∧
    (∀ (db : DB) (req : PagoReq) (db2 : DB) (st : Nat) (m : String),
      registrarPagoCompra db req = (db2, .ok st m) →
      ∀ c ∈ db2.compras, c.id = req.purchaseId →
        c.estado_pago = newStatus (totalPago db2.pagos_compra req.purchaseId)
          (calculatedTotal db2 req.purchaseId)) ∧
    (∀ (pagos pagos2 : List PagoCompra) (pid : Nat), pagos.Perm pagos2 →
      totalPago pagos pid = totalPago pagos2 pid) ∧
    ((registrarPagoCompra dbScenario7 pago40).1.compras.map Compra.estado_pago =
      ["Parcialmente Pagado"]) ∧
    ((registrarPagoCompra (registrarPagoCompra dbScenario7 pago40).1 pago60).1.compras.map
      (fun c => (c.estado_pago, c.monto_total)) = [("Pagado", 100)]) := by
  refine ⟨?_, ?_, ?_, ?_⟩
  · intro tp m
    unfold newStatus
    by_cases h1 : m - 1/1000 ≤ tp
    · rw [if_pos h1]
      refine ⟨iff_of_true rfl h1, ?_, ?_⟩
      · exact iff_of_false (by simp) (fun h => absurd h1 (not_le.2 h.2))
      · exact iff_of_false (by simp) (fun h => absurd h1 (not_le.2 h.2))
    · rw [if_neg h1]
      have h1' : tp < m - 1/1000 := not_le.1 h1
      by_cases h2 : 0 < tp
      · rw [if_pos h2]
        refine ⟨iff_of_false (by simp) h1, iff_of_true rfl ⟨h2, h1'⟩, ?_⟩
        exact iff_of_false (by simp) (fun h => absurd h.1 (not_le.2 h2))
      · rw [if_neg h2]
        refine ⟨iff_of_false (by simp) h1, ?_, iff_of_true rfl ⟨not_lt.1 h2, h1'⟩⟩
        exact iff_of_false (by simp) (fun h => absurd h.1 h2)
  · intro db req db2 st m h c hc hid
    have hdb2 := registrarPago_ok_spec db req db2 st m h
    have hpagos : db2.pagos_compra = (pagoInserted db req).pagos_compra := by rw [hdb2]
    have hct : calculatedTotal db2 req.purchaseId =
        calculatedTotal (pagoInserted db req) req.purchaseId := by
      rw [hdb2]
      exact calculatedTotal_updateCompras (pagoInserted db req) req.purchaseId _ _
    rw [hdb2] at hc
    rw [hpagos, hct]
    exact (mem_updateComprasPago _ _ _ _ c hc hid).1
  · intro pagos pagos2 pid h
    unfold totalPago
    exact ((h.filter _).map PagoCompra.monto).sum_eq
  · constructor <;>
      norm_num +decide [registrarPagoCompra, pagoInserted, totalsQueryRows, calculatedTotal,
        totalPago, lineTotal, newStatus, updateComprasPago, dbScenario7, dbEmpty,
        pago40, pago60]

/-- **C4.** Every successful registrar-pago-compra call stores, as the
purchase's `monto_total`, the currency-normalized sum recomputed from the
line-item rows of the incoming store (the request carries no total at all,
so no client-supplied or cached value can be written); the second conjunct
unfolds that recomputation: over the purchase's line items it sums
quantity × unit cost, multiplying '$' lines by the purchase row's exchange
rate with NULL defaulting to 1. -/
theorem monto_total_recomputed :
    (∀ (db : DB) (req : PagoReq) (db2 : DB) (st : Nat) (m : String),
      registrarPagoCompra db req = (db2, .ok st m) →
      ∀ c ∈ db2.compras, c.id = req.purchaseId →
        c.monto_total = calculatedTotal db req.purchaseId) ∧
    (∀ (db : DB) (pid : Nat) (c0 : Compra),
      db.compras.find? (fun c => decide (c.id = pid)) = some c0 →
      calculatedTotal db pid =
        ((db.detalles_compra.filter fun d => decide (d.id_compra = pid)).map fun d =>
          if d.moneda = some "$" then d.cantidad * d.costo_unitario * (c0.tipo_cambio.getD 1)
          else d.cantidad * d.costo_unitario).sum) := by
  constructor
  · intro db req db2 st m h c hc hid
    have hdb2 := registrarPago_ok_spec db req db2 st m h
    rw [hdb2] at hc
    have : calculatedTotal (pagoInserted db req) req.purchaseId =
        calculatedTotal db req.purchaseId := rfl
    rw [← this]
    exact (mem_updateComprasPago _ _ _ _ c hc hid).2
  · intro db pid c0 hfind
    unfold calculatedTotal
    rw [hfind]
    rfl

/-- **C7.** The not-found check of registrar-pago-compra is dead code: the
totals query is a pair of scalar aggregate subqueries and returns exactly one
row whether or not the purchase exists, so `rows.length === 0` never holds
and no call can answer with the not-found error (first conjunct) — the only
error the handler ever returns is the input-validation one.  At the concrete
failing input (payment of 50 against purchase id 5 in an empty store) the
call commits and reports success, persisting an orphan payment row, where
the claim demands a NotFound failure with no state change (remaining
conjuncts). -/
theorem registrarPago_notFound_unreachable :
    (∀ (db : DB) (req : PagoReq) (st : Nat) (e : PagoErr),
      (registrarPagoCompra db req).2 = .err st e → e = .faltanDatos) ∧
    (registrarPagoCompra dbEmpty pagoInexistente).2 =
      .ok 200 "Pago registrado y estado actualizado." ∧
    (registrarPagoCompra dbEmpty pagoInexistente).1.pagos_compra =
      [PagoCompra.mk 5 50 "2026-01-01" "Efectivo" none] ∧
    dbEmpty.compras = [] := by
  refine ⟨?_, ?_⟩
  · intro db req st e h
    unfold registrarPagoCompra at h
    split at h
    · simp only [PagoResp.err.injEq] at h
      exact h.2.symm
    · exact absurd h (by exact fun hh => PagoResp.noConfusion hh)
  · norm_num [registrarPagoCompra, pagoInserted, totalsQueryRows, calculatedTotal,
      totalPago, lineTotal, newStatus, updateComprasPago, dbEmpty, pagoInexistente]
    decide

/-! ## Lemmas about the weighted-average merge -/

/-- Upserting into an empty table inserts the incoming batch as-is. -/
theorem upsertInventarioRecibo_nil (p s : Nat) (q c : ℚ) :
    upsertInventarioRecibo [] p s q c = [InvRow.mk p s q c] := by
  simp [upsertInventarioRecibo]

/-- Upserting into the one row with the matching key merges quantity and
weighted-average cost. -/
theorem upsertInventarioRecibo_singleton (p s : Nat) (Q C q c : ℚ) :
    upsertInventarioRecibo [InvRow.mk p s Q C] p s q c =
      [InvRow.mk p s (Q + q) (mergeCostoPromedio Q C q c)] := by
  simp [upsertInventarioRecibo]

/-- Folding a batch sequence into a single positive-quantity row keeps one
row whose quantity is the running sum and whose cost is the running weighted
average. -/
theorem foldl_upsert_singleton (p s : Nat) (batches : List (ℚ × ℚ)) :
    ∀ Q C : ℚ, 0 < Q → (∀ qc ∈ batches, 0 < qc.1) →
      batches.foldl (fun inv qc => upsertInventarioRecibo inv p s qc.1 qc.2)
          [InvRow.mk p s Q C] =
        [InvRow.mk p s (Q + (batches.map Prod.fst).sum)
          ((Q * C + (batches.map fun qc => qc.1 * qc.2).sum) /
            (Q + (batches.map Prod.fst).sum))] := by
  induction batches with
  | nil =>
    intro Q C hQ _
    simp only [List.foldl_nil, List.map_nil, List.sum_nil, add_zero, List.cons.injEq,
      InvRow.mk.injEq, true_and, and_true]
    exact (mul_div_cancel_left₀ C (ne_of_gt hQ)).symm
  | cons qc rest ih =>
    intro Q C hQ hpos
    have hq : 0 < qc.1 := hpos qc (List.mem_cons_self qc rest)
    have hQq : 0 < Q + qc.1 := add_pos hQ hq
    rw [List.foldl_cons]
    show (rest.foldl (fun inv qc => upsertInventarioRecibo inv p s qc.1 qc.2)
        (upsertInventarioRecibo [InvRow.mk p s Q C] p s qc.1 qc.2)) = _
    rw [upsertInventarioRecibo_singleton]
    rw [show mergeCostoPromedio Q C qc.1 qc.2 = (Q * C + qc.1 * qc.2) / (Q + qc.1) from by
      unfold mergeCostoPromedio; rw [if_neg (ne_of_gt hQq)]]
    rw [ih (Q + qc.1) _ hQq (fun x hx => hpos x (List.mem_cons_of_mem qc hx))]
    have h2 : (Q + qc.1) * ((Q * C + qc.1 * qc.2) / (Q + qc.1)) = Q * C + qc.1 * qc.2 := by
      field_simp
    simp only [List.map_cons, List.sum_cons, List.cons.injEq, InvRow.mk.injEq, true_and,
      and_true]
    refine ⟨by ring, ?_⟩
    rw [h2, add_assoc, add_assoc]

/-- Merging a nonempty sequence of positive batches into an initially empty
row yields the total quantity and the quantity-weighted average cost. -/
theorem mergeSequence_weighted_avg (p s : Nat) (batches : List (ℚ × ℚ))
    (hne : batches ≠ []) (hpos : ∀ qc ∈ batches, 0 < qc.1) :
    mergeSequence p s batches =
      [InvRow.mk p s (batches.map Prod.fst).sum
        ((batches.map fun qc => qc.1 * qc.2).sum / (batches.map Prod.fst).sum)] := by
  match batches, hne with
  | (q, c) :: rest, _ =>
    unfold mergeSequence
    rw [List.foldl_cons]
    show (rest.foldl (fun inv qc => upsertInventarioRecibo inv p s qc.1 qc.2)
        (upsertInventarioRecibo [] p s q c)) = _
    rw [upsertInventarioRecibo_nil]
    rw [foldl_upsert_singleton p s rest q c (hpos (q, c) (by simp))
      (fun x hx => hpos x (List.mem_cons_of_mem _ hx))]
    simp only [List.map_cons, List.sum_cons]

/-- **C2.** Merging a batch of `q` units at cost `c` into an existing
(product, branch) row with quantity `Q` and cost `C` yields quantity `Q + q`
and cost `(Q*C + q*c)/(Q + q)` — the purchase-creation upsert applies the
formula directly (first conjunct; over ℚ a zero denominator makes the
quotient 0, a case the handler's `cantidad > 0` validation keeps unreachable
from nonnegative stock), and the receipt upsert guards the zero-total case
explicitly, setting cost 0 (second conjunct).  For any nonempty sequence of
positive batches merged into an initially empty row, the final quantity is
`Σ qi` and the final cost the weighted average `Σ qi*ci / Σ qi` (third
conjunct). -/
theorem weighted_average_merge :
    (∀ (p s : Nat) (Q C q c : ℚ),
      upsertInventarioCompra [InvRow.mk p s Q C] p s q c =
        [InvRow.mk p s (Q + q) ((Q * C + q * c) / (Q + q))]) ∧
    (∀ (p s : Nat) (Q C q c : ℚ),
      upsertInventarioRecibo [InvRow.mk p s Q C] p s q c =
        [InvRow.mk p s (Q + q) (if Q + q = 0 then 0 else (Q * C + q * c) / (Q + q))]) ∧
    (∀ (p s : Nat) (batches : List (ℚ × ℚ)), batches ≠ [] →
      (∀ qc ∈ batches, 0 < qc.1) →
      mergeSequence p s batches =
        [InvRow.mk p s (batches.map Prod.fst).sum
          ((batches.map fun qc => qc.1 * qc.2).sum / (batches.map Prod.fst).sum)]) := by
  refine ⟨?_, ?_, mergeSequence_weighted_avg⟩
  · intro p s Q C q c
    simp [upsertInventarioCompra, mergeCostoPromedioCompra]
  · intro p s Q C q c
    simp [upsertInventarioRecibo, mergeCostoPromedio]

/-- **C8 counterexample.** A malformed create-sale input — here the empty
item list — is answered with HTTP status 500, not the 400 the claim
reserves for malformed input. -/
theorem createSale_malformed_status_500 :
    (createSale dbScenario6 reqSinItems).2 = .err 500 .datosIncompletos := by
  decide

/-- **C8 (amended).** create-sale maps every handler error — malformed input
included — to status 500 with a `msg` body, and every success to status 200;
no 400 response exists in the handler. -/
theorem createSale_error_statuses :
    ∀ (db : DB) (req : SaleReq),
      (∃ ventaId, (createSale db req).2 = .ok 200 ventaId) ∨
      (∃ e, (createSale db req).2 = .err 500 e) := by
  intro db req
  unfold createSale
  split
  · exact .inr ⟨_, rfl⟩
  · rcases htxn : createSaleTxn db req with e | ⟨db2, vid⟩
    · exact .inr ⟨e, rfl⟩
    · exact .inl ⟨vid, rfl⟩

/-- **C9 counterexample.** A create-purchase request whose `estado` (initial
state) field is missing passes the header validation — and its items pass the
item validation — so no InvalidInput failure occurs for a missing initial
state. -/
theorem createPurchase_estado_unvalidated :
    reqSinEstado.estado = none ∧ purchaseHeaderInvalid reqSinEstado = false ∧
    (reqSinEstado.items.getD []).all (fun it => !purchaseItemInvalid it) = true := by
  decide

/-- **C9 (amended).** create-purchase validation fails exactly when the
provider id or branch id is falsy, the declared total is not a number, or
the item list is missing or empty (header guard), and per item exactly when
any of product id, quantity or unit cost is not a number or the quantity is
non-positive (item guard); the initial state field plays no role in
validation at all. -/
theorem createPurchase_validation_characterization :
    (∀ req : RawPurchaseReq, purchaseHeaderInvalid req = true ↔
      (truthy req.id_proveedor = false ∨ truthy req.id_sucursal = false ∨
       isNumber req.monto_total = false ∨ req.items = none ∨ req.items = some [])) ∧
    (∀ item : RawPurchaseItem, purchaseItemInvalid item = true ↔
      (isNumber item.id_producto = false ∨ isNumber item.cantidad = false ∨
       isNumber item.costo_unitario = false ∨ numVal item.cantidad ≤ 0)) ∧
    (∀ (req : RawPurchaseReq) (v : Option JVal),
      purchaseHeaderInvalid { req with estado := v } = purchaseHeaderInvalid req) := by
  refine ⟨?_, ?_, ?_⟩
  · intro req
    cases h : req.items with
    | none => simp [purchaseHeaderInvalid, h]
    | some l =>
      cases l with
      | nil => simp [purchaseHeaderInvalid, h]
      | cons a t => simp [purchaseHeaderInvalid, h, or_assoc]
  · intro item
    simp [purchaseItemInvalid, Bool.or_eq_true, Bool.not_eq_true', decide_eq_true_iff,
      or_assoc]
  · intro req v
    rfl

/-! ## Concrete sanity checks

Standalone evaluations of the handlers on the example stores, showing the
hypotheses of the development are satisfiable on concrete runs. -/

/-- Receiving pending purchase 3 credits 10 units of product 7 at branch 2
and confirms the purchase; the immediate second receipt fails with the
invalid-state error naming 'Confirmado' and changes nothing. -/
theorem receive_scenario_sanity :
    (receivePurchaseStock dbScenario7 3).2 = .ok 200 "Stock actualizado correctamente." ∧
    (receivePurchaseStock dbScenario7 3).1.inventario = [InvRow.mk 7 2 10 10] ∧
    (receivePurchaseStock (receivePurchaseStock dbScenario7 3).1 3).2 =
      .err 400 (.estadoInvalido "Confirmado") ∧
    (receivePurchaseStock (receivePurchaseStock dbScenario7 3).1 3).1 =
      (receivePurchaseStock dbScenario7 3).1 := by
  decide

/-- Merging a batch of 5 units at cost 8 into 5 units at cost 4 yields 10
units at weighted-average cost 6, through either upsert. -/
theorem upsert_merge_sanity :
    upsertInventarioCompra [InvRow.mk 7 2 5 4] 7 2 5 8 = [InvRow.mk 7 2 10 6] ∧
    upsertInventarioRecibo [InvRow.mk 7 2 5 4] 7 2 5 8 = [InvRow.mk 7 2 10 6] ∧
    mergeSequence 7 2 [(5, 4), (5, 8)] = [InvRow.mk 7 2 10 6] := by
  refine ⟨?_, ?_, ?_⟩ <;>
    norm_num [upsertInventarioCompra, upsertInventarioRecibo, mergeSequence,
      mergeCostoPromedioCompra, mergeCostoPromedio]

/-- A create-sale request with a zero-quantity item among valid items fails
and persists nothing, and so does the analogous create-purchase request. -/
theorem atomicity_sanity :
    (createSale dbScenario6 (SaleReq.mk 2 9 30 "Efectivo"
      [SaleItem.mk 7 3 10, SaleItem.mk 7 0 10])).1 = dbScenario6 ∧
    (createSale dbScenario6 (SaleReq.mk 2 9 30 "Efectivo"
      [SaleItem.mk 7 3 10, SaleItem.mk 7 0 10])).2 = .err 500 (.itemInvalido 7) ∧
    (createPurchase dbScenario6 (PurchaseReq.mk 1 2 100 "Pendiente"
      [PurchaseItem.mk 7 2 5, PurchaseItem.mk 8 0 5])).1 = dbScenario6 ∧
    (createPurchase dbScenario6 (PurchaseReq.mk 1 2 100 "Pendiente"
      [PurchaseItem.mk 7 2 5, PurchaseItem.mk 8 0 5])).2 = .err 500 (.itemInvalido 8) := by
  refine ⟨?_, ?_, ?_, ?_⟩ <;>
    · norm_num +decide [createSale, createSaleTxn, ventaHeaderInserted, saleItemsLoop,
        condDecrement, createPurchase, compraHeaderInserted, compraItemsLoop,
        upsertInventarioCompra, mergeCostoPromedioCompra, dbScenario6, dbEmpty]

end ServiVENT
